import Mathlib

/-!
# Verification of the IA-resolver-OS similarity / ranking core

Shallow embedding of the Python sources (`ml_service.py`, `case_service.py`,
`models.py`, `routes.py`) of the IA-resolver-OS knowledge-base application,
together with proofs and refutations of the frozen specification claims.

Numeric values are modelled over `ℚ` (exact rational arithmetic) except for
the TF-IDF cosine-similarity pipeline, which involves real logarithms and
square roots and is modelled over `ℝ`.  Python strings are modelled as Lean
`String`s; Python `dict`s / `set`s as association lists / duplicate-free
lists.  External-library behaviour (`unicodedata`, `sklearn`) is modelled at
the interface level and documented at each definition.
-/

namespace IaResolver

/-! ## Python string primitives -/

/-- Whitespace characters recognised by Python's `str.split()` / `str.strip()`
(restricted to the ASCII whitespace characters; the sources only feed
Latin text through these helpers). -/
def pyIsWs (c : Char) : Bool :=
  c = ' ' || c = '\t' || c = '\n' || c = '\r' || c = '\x0b' || c = '\x0c'

/-- Drop leading and trailing whitespace from a character list
(Python `str.strip()`). -/
def stripChars (l : List Char) : List Char :=
  ((l.dropWhile pyIsWs).reverse.dropWhile pyIsWs).reverse

/-- Python `str.strip()`. -/
def pyStrip (s : String) : String := ⟨stripChars s.toList⟩

/-- Split a character list at every character satisfying `p`, keeping empty
segments (Python `str.split(sep)` semantics for a one-character separator). -/
def splitPAux (p : Char → Bool) : List Char → List (List Char)
  | [] => [[]]
  | c :: cs =>
    if p c then [] :: splitPAux p cs
    else
      match splitPAux p cs with
      | [] => [[c]]
      | t :: ts => (c :: t) :: ts

/-- Python `s.split(',')`-style split on a single separator character. -/
def pySplitChar (sep : Char) (s : String) : List String :=
  (splitPAux (fun c => c = sep) s.toList).map (fun l => ⟨l⟩)

/-- Python `str.split()` with no argument: split on whitespace runs and
discard empty fields. -/
def wsTokens (s : String) : List String :=
  ((splitPAux pyIsWs s.toList).map (fun l => (⟨l⟩ : String))).filter (· ≠ "")

/-- Interleave `sep` between the lists of `ls` (Python `sep.join`). -/
def joinSep (sep : List Char) : List (List Char) → List Char
  | [] => []
  | [l] => l
  | l :: l' :: ls => l ++ sep ++ joinSep sep (l' :: ls)

/-- Python `sep.join(strings)` for a one-character separator. -/
def pyJoin (sep : Char) (ts : List String) : String :=
  ⟨joinSep [sep] (ts.map String.toList)⟩

/-- Left-to-right, non-overlapping replacement of the non-empty pattern
`p :: pt` by `rep` (the recursion of Python `str.replace`).  Structural
recursion on a fuel bounded by the input length (each step consumes at
least one character, so `l.length` fuel is always sufficient). -/
def replaceAux (p : Char) (pt rep : List Char) : Nat → List Char → List Char
  | _, [] => []
  | 0, l => l
  | f + 1, c :: cs =>
    if (p :: pt).isPrefixOf (c :: cs) then
      rep ++ replaceAux p pt rep f (cs.drop pt.length)
    else
      c :: replaceAux p pt rep f cs

/-- Python `s.replace(pat, rep)`.  All patterns used by the sources are
non-empty; for an empty pattern we return `s` unchanged. -/
def pyReplace (s pat rep : String) : String :=
  match pat.toList with
  | [] => s
  | p :: pt => ⟨replaceAux p pt rep.toList s.toList.length s.toList⟩

/-- Substring test on character lists (Python's `needle in haystack`). -/
def subAux (pat : List Char) : List Char → Bool
  | [] => pat.isEmpty
  | c :: cs => (pat.isPrefixOf (c :: cs)) || subAux pat cs

/-- Python `needle in haystack` for strings. -/
def pyIn (needle hay : String) : Bool := subAux needle.toList hay.toList

/-- Remove duplicates keeping the first occurrence (Python `set` /
`dict.fromkeys` insertion-order semantics). -/
def pyDedup {α : Type} [DecidableEq α] (l : List α) : List α :=
  l.foldl (fun acc x => if x ∈ acc then acc else acc ++ [x]) []

/-- Python's stable `list.sort(key=…, reverse=True)` is modelled by
`List.insertionSort r` with `r a b := key b ≤ key a`: a stable descending
sort (ties keep their original relative order, exactly as in Python). -/
def pySortDescBy {α : Type} (key : α → ℚ) (l : List α) : List α :=
  List.insertionSort (fun a b => key b ≤ key a) l

/-- First update of a string-keyed association list (Python dict assignment:
an existing key keeps its position, a new key is appended). -/
def setAssoc {β : Type} : List (String × β) → String → β → List (String × β)
  | [], k, v => [(k, v)]
  | p :: ps, k, v => if p.1 = k then (k, v) :: ps else p :: setAssoc ps k v

/-! ## Text normalisation (`MLService._preprocess_text`) -/

/-- Lowercasing (Python `str.lower()`), modelled for ASCII letters and the
precomposed Latin accented capitals that can reach the pipeline. -/
def pyLowerChar (c : Char) : Char :=
  if 'A' ≤ c ∧ c ≤ 'Z' then Char.ofNat (c.toNat + 32)
  else match c with
    | 'À' => 'à' | 'Á' => 'á' | 'Â' => 'â' | 'Ã' => 'ã' | 'Ä' => 'ä'
    | 'È' => 'è' | 'É' => 'é' | 'Ê' => 'ê' | 'Ë' => 'ë'
    | 'Ì' => 'ì' | 'Í' => 'í' | 'Î' => 'î' | 'Ï' => 'ï'
    | 'Ò' => 'ò' | 'Ó' => 'ó' | 'Ô' => 'ô' | 'Õ' => 'õ' | 'Ö' => 'ö'
    | 'Ù' => 'ù' | 'Ú' => 'ú' | 'Û' => 'û' | 'Ü' => 'ü'
    | 'Ç' => 'ç' | 'Ñ' => 'ñ'
    | c => c

/-- Python `str.lower()`. -/
def pyLower (s : String) : String := ⟨s.toList.map pyLowerChar⟩

/-- Combining diacritical marks (Unicode block U+0300–U+036F, category Mn). -/
def isCombiningMark (c : Char) : Bool :=
  0x300 ≤ c.toNat && c.toNat ≤ 0x36F

/-- Base letter of a precomposed Latin accented character. -/
def nfdBase (c : Char) : Char :=
  match c with
  | 'à' => 'a' | 'á' => 'a' | 'â' => 'a' | 'ã' => 'a' | 'ä' => 'a'
  | 'è' => 'e' | 'é' => 'e' | 'ê' => 'e' | 'ë' => 'e'
  | 'ì' => 'i' | 'í' => 'i' | 'î' => 'i' | 'ï' => 'i'
  | 'ò' => 'o' | 'ó' => 'o' | 'ô' => 'o' | 'õ' => 'o' | 'ö' => 'o'
  | 'ù' => 'u' | 'ú' => 'u' | 'û' => 'u' | 'ü' => 'u'
  | 'ç' => 'c' | 'ñ' => 'n'
  | 'À' => 'A' | 'Á' => 'A' | 'Â' => 'A' | 'Ã' => 'A' | 'Ä' => 'A'
  | 'È' => 'E' | 'É' => 'E' | 'Ê' => 'E' | 'Ë' => 'E'
  | 'Ì' => 'I' | 'Í' => 'I' | 'Î' => 'I' | 'Ï' => 'I'
  | 'Ò' => 'O' | 'Ó' => 'O' | 'Ô' => 'O' | 'Õ' => 'O' | 'Ö' => 'O'
  | 'Ù' => 'U' | 'Ú' => 'U' | 'Û' => 'U' | 'Ü' => 'U'
  | 'Ç' => 'C' | 'Ñ' => 'N'
  | c => c

/-- `unicodedata.normalize('NFD', ·)` followed by removal of category-Mn
characters, modelled for the Latin accented characters the application
handles: each precomposed accented letter decomposes into its base letter
plus a (removed) combining mark, and free-standing combining marks are
removed. -/
def nfdStripMarks (s : String) : String :=
  ⟨(s.toList.map (fun c => if isCombiningMark c then [] else [nfdBase c])).flatten⟩

/-- The explicit accent map of `_preprocess_text`, in Python dict order. -/
def accentMapPairs : List (String × String) :=
  [("à", "a"), ("á", "a"), ("â", "a"), ("ã", "a"), ("ä", "a"),
   ("è", "e"), ("é", "e"), ("ê", "e"), ("ë", "e"),
   ("ì", "i"), ("í", "i"), ("î", "i"), ("ï", "i"),
   ("ò", "o"), ("ó", "o"), ("ô", "o"), ("õ", "o"), ("ö", "o"),
   ("ù", "u"), ("ú", "u"), ("û", "u"), ("ü", "u"),
   ("ç", "c"), ("ñ", "n")]

/-- The contraction/abbreviation map of `_preprocess_text`, in Python dict
order.  Note that the source applies these as plain substring replacements
(`text.replace(short, full)`), not token-wise. -/
def contractionPairs : List (String × String) :=
  [("nao", "não"), ("pq", "porque"), ("vc", "voce"), ("tb", "tambem"),
   ("q", "que"), ("eh", "e"), ("soh", "so"), ("td", "tudo")]

/-- Apply a sequence of `str.replace` rewrites in order. -/
def applyReplacements (prs : List (String × String)) (s : String) : String :=
  prs.foldl (fun t pr => pyReplace t pr.1 pr.2) s

/-- A character matched by Python's regex `\w` (modelled for ASCII
alphanumerics, underscore, and the Latin accented letters above). -/
def isPyWordChar (c : Char) : Bool :=
  c.isAlphanum || c = '_' || nfdBase c ≠ c

/-- `re.sub(r'[^\w\s-]', ' ', text)`: replace every character that is not a
word character, whitespace or hyphen by a space. -/
def punctToSpace (s : String) : String :=
  ⟨s.toList.map (fun c => if isPyWordChar c || pyIsWs c || c = '-' then c else ' ')⟩

/-- `re.sub(r'\s+', ' ', text).strip()`: collapse whitespace runs to single
spaces and trim. -/
def collapseWs (s : String) : String :=
  pyJoin ' ' (wsTokens s)

/-- `MLService._preprocess_text`: lowercase, strip diacritics, apply the
explicit accent map, apply the contraction substring replacements, replace
punctuation by spaces, and collapse whitespace. -/
def preprocessText (text : String) : String :=
  if text = "" then ""
  else
    let t := pyLower text
    let t := nfdStripMarks t
    let t := applyReplacements accentMapPairs t
    let t := applyReplacements contractionPairs t
    let t := punctToSpace t
    collapseWs t

/-! ## Stop words, semantic equivalents, tokenizers -/

/-- `MLService.stop_words['portuguese']`. -/
def stopWordsPt : List String :=
  ["o", "a", "os", "as", "um", "uma", "uns", "umas", "de", "do", "da", "dos", "das",
   "em", "no", "na", "nos", "nas", "por", "para", "com", "sem", "sob", "sobre",
   "e", "ou", "mas", "que", "se", "quando", "onde", "como", "porque", "pois",
   "ser", "estar", "ter", "haver", "fazer", "ir", "vir", "dar", "ver", "dizer",
   "muito", "mais", "menos", "bem", "mal", "só", "também", "já", "ainda", "sempre"]

/-- `MLService.stop_words['english']`. -/
def stopWordsEn : List String :=
  ["the", "a", "an", "and", "or", "but", "in", "on", "at", "to", "for", "of", "with",
   "by", "from", "up", "about", "into", "through", "during", "before", "after",
   "above", "below", "between", "among", "this", "that", "these", "those",
   "is", "are", "was", "were", "be", "been", "being", "have", "has", "had",
   "do", "does", "did", "will", "would", "could", "should", "may", "might", "must"]

/-- `MLService.semantic_equivalents`, in Python dict order. -/
def semanticEquivalents : List (String × List String) :=
  [("senha", ["password", "pass", "pwd", "login", "credencial", "acesso", "autenticacao", "logon", "autenticar"]),
   ("password", ["senha", "pass", "pwd", "login", "credencial", "acesso", "autenticacao", "logon", "autenticar"]),
   ("recuperar", ["recover", "reset", "resetar", "restaurar", "redefinir", "resgatar", "recuperacao"]),
   ("esqueci", ["forgot", "perdeu", "perdi", "esqueceu", "nao lembro", "nao sei"]),
   ("expirada", ["expired", "vencida", "bloqueada", "blocked", "invalid", "invalida", "venceu"]),
   ("expiry", ["expiracao", "vencimento", "validade"]),
   ("bloqueado", ["blocked", "travado", "locked", "impedido", "restrito"]),
   ("acesso", ["access", "login", "entrada", "logon", "conectar", "acessar"]),
   ("rede", ["network", "net", "conectividade", "conexao", "connection"]),
   ("network", ["rede", "net", "conectividade", "conexao", "connection"]),
   ("internet", ["web", "online", "conectividade"]),
   ("wifi", ["wireless", "sem fio", "wi-fi"]),
   ("sistema", ["system", "aplicacao", "application", "app", "software"]),
   ("system", ["sistema", "aplicacao", "application", "app", "software"]),
   ("erro", ["error", "falha", "failure", "problema", "problem", "issue"]),
   ("error", ["erro", "falha", "failure", "problema", "problem", "issue"]),
   ("lento", ["slow", "devagar", "performance", "lag", "delay"]),
   ("slow", ["lento", "devagar", "performance", "lag", "delay"]),
   ("reiniciar", ["restart", "reboot", "reset", "resetar"]),
   ("restart", ["reiniciar", "reboot", "reset", "resetar"]),
   ("instalar", ["install", "setup", "configurar", "configure"]),
   ("install", ["instalar", "setup", "configurar", "configure"]),
   ("atualizar", ["update", "upgrade", "refresh", "sync"]),
   ("update", ["atualizar", "upgrade", "refresh", "sync"]),
   ("paciente", ["patient", "cliente", "user", "usuario"]),
   ("medico", ["doctor", "physician", "clinician"]),
   ("consulta", ["appointment", "visit", "session"]),
   ("exame", ["exam", "test", "procedure", "procedimento"]),
   ("prontuario", ["record", "chart", "file", "history"])]

/-- Equivalents listed for a token (empty when the token is not a key). -/
def equivalentsOf (t : String) : List String :=
  (semanticEquivalents.lookup t).getD []

/-- `MLService._semantic_tokenizer`: whitespace split, drop stop words and
tokens of length ≤ 2. -/
def semanticTokenizer (text : String) : List String :=
  (wsTokens text).filter
    (fun t => !(stopWordsPt.contains t) && !(stopWordsEn.contains t)
              && decide (2 < t.length))

/-- `MLService._semantic_preprocess`: preprocess, then after each word append
its first two semantic equivalents. -/
def semanticPreprocess (text : String) : String :=
  if text = "" then ""
  else
    let t := preprocessText text
    pyJoin ' ' (((wsTokens t).map (fun w => w :: (equivalentsOf w).take 2)).flatten)

/-! ## Data model (`models.py`) -/

/-- `models.Case`: a stored problem/solution pair.  `created_at` is omitted
(wall-clock time, irrelevant to the claims below). -/
structure Case where
  problem_description : String
  solution : String
  system_type : String
  effectiveness_score : Option ℚ
  feedback_count : ℕ
  tags : String
deriving DecidableEq, Repr

/-- `Case.add_feedback` (models.py lines 45-64): update the running mean and
feedback count.  The creation of the `CaseFeedback` row is pure storage and
not modelled. -/
def Case.add_feedback (c : Case) (effectiveness : ℤ) : Case :=
  match c.effectiveness_score with
  | none =>
    { c with effectiveness_score := some (effectiveness : ℚ),
             feedback_count := c.feedback_count + 1 }
  | some s =>
    { c with effectiveness_score :=
               some ((s * c.feedback_count + effectiveness) / (c.feedback_count + 1)),
             feedback_count := c.feedback_count + 1 }

/-- Fold a sequence of feedback events over a case. -/
def applyFeedbacks (c : Case) (scores : List ℤ) : Case :=
  scores.foldl Case.add_feedback c

/-- `Case.get_tags_list`. -/
def Case.get_tags_list (c : Case) : List String :=
  if c.tags = "" then []
  else ((pySplitChar ',' c.tags).map pyStrip).filter (· ≠ "")

/-- `Case.set_tags_list`. -/
def Case.set_tags_list (c : Case) (ts : List String) : Case :=
  { c with tags := if ts = [] then "" else pyJoin ',' ts }

/-! ## Confidence score (`MLService._calculate_confidence`) -/

/-- The fixed technical-term list of `_calculate_confidence`. -/
def technicalKeywords : List String :=
  ["erro", "falha", "exception", "timeout", "connection", "database", "server"]

/-- `MLService._calculate_confidence` (ml_service.py lines 787-812). -/
def calculateConfidence (problem_description system_type : String)
    (suggestions : List String) : ℚ :=
  let confidence : ℚ := 1/2
  let confidence := if 50 < problem_description.length then confidence + 1/10 else confidence
  let confidence := if 100 < problem_description.length then confidence + 1/10 else confidence
  let confidence := if 200 < problem_description.length then confidence + 1/10 else confidence
  let confidence := if system_type ≠ "Unknown" then confidence + 1/5 else confidence
  let confidence := if 3 ≤ suggestions.length then confidence + 1/10 else confidence
  let keyword_count := technicalKeywords.countP (fun k => pyIn k (pyLower problem_description))
  let confidence := confidence + min ((keyword_count : ℚ) * (1/20)) (1/5)
  min confidence 1

/-- The confidence formula as worded by claim C5: base 0.5, plus 0.1 per 50
characters of problem length capped at +0.3, plus 0.2 for a known system,
plus 0.1 for ≥ 3 suggestions, plus 0.05 per matched technical keyword capped
at +0.2, clamped to `[0, 1]`. -/
def confidenceClaim (problem_description system_type : String)
    (suggestions : List String) : ℚ :=
  let v : ℚ := 1/2
    + min ((problem_description.length / 50 : ℕ) * (1/10) : ℚ) (3/10)
    + (if system_type ≠ "Unknown" then 1/5 else 0)
    + (if 3 ≤ suggestions.length then 1/10 else 0)
    + min ((technicalKeywords.countP (fun k => pyIn k (pyLower problem_description)) : ℚ)
            * (1/20)) (1/5)
  max 0 (min v 1)

/-- C5 amended: same as the claim but the length bonus is +0.1 for each of
the strict thresholds 50, 100 and 200 characters exceeded (not uniformly per
50 characters). -/
def confidenceAmended (problem_description system_type : String)
    (suggestions : List String) : ℚ :=
  max 0 (min (1/2
    + (if 50 < problem_description.length then (1/10 : ℚ) else 0)
    + (if 100 < problem_description.length then (1/10 : ℚ) else 0)
    + (if 200 < problem_description.length then (1/10 : ℚ) else 0)
    + (if system_type ≠ "Unknown" then (1/5 : ℚ) else 0)
    + (if 3 ≤ suggestions.length then (1/10 : ℚ) else 0)
    + min ((technicalKeywords.countP (fun k => pyIn k (pyLower problem_description)) : ℚ)
            * (1/20)) (1/5)) 1)

/-! ## Fuzzy token matching (`CaseService._tokens_similar`) -/

/-- Number of index-aligned positions at which the two character lists
agree (`sum(1 for i, ch in enumerate(shorter) if i < len(longer) and ch == longer[i])`). -/
def countAligned : List Char → List Char → ℕ
  | [], _ => 0
  | _ :: _, [] => 0
  | c :: cs, d :: ds => (if c = d then 1 else 0) + countAligned cs ds

/-- `CaseService._tokens_similar` (case_service.py lines 331-347).  Note
that Python's `max(token1, token2, key=len)` and `min(token1, token2,
key=len)` both return `token1` when the lengths are equal, so in that case
the function compares `token1` against itself. -/
def tokensSimilar (token1 token2 : String) : Bool :=
  if token1.length < 3 || token2.length < 3 then false
  else
    let longer := if token1.length < token2.length then token2 else token1
    let shorter := if token2.length < token1.length then token2 else token1
    if ((shorter.length : ℚ) / (longer.length : ℚ)) < 3/5 then false
    else
      let common := countAligned shorter.toList longer.toList
      decide (((common : ℚ) / (shorter.length : ℚ)) > 7/10)

/-- The fuzzy-match predicate as worded by claim C6: the shorter token's
length is at least 60% of the longer's, and the number of index-aligned
agreeing positions between the two tokens exceeds 70% of the shorter
token's length. -/
def tokensSimilarClaim (token1 token2 : String) : Bool :=
  let shorterLen := min token1.length token2.length
  let longerLen := max token1.length token2.length
  decide ((3/5 : ℚ) ≤ (shorterLen : ℚ) / (longerLen : ℚ)) &&
  decide (((countAligned token1.toList token2.toList : ℚ)) / (shorterLen : ℚ) > 7/10)

/-! ## Claim theorems: C3, C4, C5, C6, C10 -/

/-- Helper: summing feedback over a case holding the mean of `sum` over a
positive count `n`. -/
theorem applyFeedbacks_mean (scores : List ℤ) :
    ∀ (c : Case) (sum : ℚ) (n : ℕ), n ≠ 0 →
    c.effectiveness_score = some (sum / n) → c.feedback_count = n →
    (applyFeedbacks c scores).effectiveness_score
        = some ((sum + ((scores.map (Int.cast : ℤ → ℚ)).sum)) / (n + scores.length)) ∧
    (applyFeedbacks c scores).feedback_count = n + scores.length := by
  induction scores with
  | nil =>
    intro c sum n hn hs hc
    simpa [applyFeedbacks, hc] using hs
  | cons e rest ih =>
    intro c sum n hn hs hc
    have hstep : (Case.add_feedback c e).effectiveness_score
        = some ((sum + (e : ℚ)) / (n + 1)) := by
      have hn' : ((n : ℚ)) ≠ 0 := by exact_mod_cast hn
      simp only [Case.add_feedback, hs, hc]
      congr 1
      field_simp
    have hcount : (Case.add_feedback c e).feedback_count = n + 1 := by
      simp only [Case.add_feedback, hs, hc]
    have := ih (Case.add_feedback c e) (sum + (e : ℚ)) (n + 1) (Nat.succ_ne_zero n)
      (by exact_mod_cast hstep) hcount
    refine ⟨?_, ?_⟩
    · rw [show applyFeedbacks c (e :: rest) = applyFeedbacks (Case.add_feedback c e) rest from rfl]
      rw [this.1]
      congr 1
      simp only [List.map_cons, List.sum_cons, List.length_cons]
      push_cast
      ring
    · rw [show applyFeedbacks c (e :: rest) = applyFeedbacks (Case.add_feedback c e) rest from rfl]
      rw [this.2]
      simp only [List.length_cons]
      omega

/-- A case as created by the application: no feedback yet. -/
def freshCase (p sol sys tg : String) : Case := ⟨p, sol, sys, none, 0, tg⟩

/-- Helper: evaluating a non-empty feedback run from a fresh case. -/
theorem applyFeedbacks_fresh (p sol sys tg : String) (e : ℤ) (rest : List ℤ) :
    (applyFeedbacks (freshCase p sol sys tg) (e :: rest)).effectiveness_score
        = some (((e : ℚ) + ((rest.map (Int.cast : ℤ → ℚ)).sum)) / (1 + rest.length)) ∧
    (applyFeedbacks (freshCase p sol sys tg) (e :: rest)).feedback_count
        = 1 + rest.length := by
  have h1 : (Case.add_feedback (freshCase p sol sys tg) e).effectiveness_score
      = some ((e : ℚ) / (1 : ℕ)) := by
    simp [Case.add_feedback, freshCase]
  have h2 : (Case.add_feedback (freshCase p sol sys tg) e).feedback_count = 1 := by
    simp [Case.add_feedback, freshCase]
  have := applyFeedbacks_mean rest (Case.add_feedback (freshCase p sol sys tg) e)
    (e : ℚ) 1 one_ne_zero h1 h2
  rw [show applyFeedbacks (freshCase p sol sys tg) (e :: rest)
        = applyFeedbacks (Case.add_feedback (freshCase p sol sys tg) e) rest from rfl]
  exact ⟨this.1, this.2⟩

/-- C3: starting from a fresh case (no feedback), after any sequence of
feedback events submitted through `Case.add_feedback`,
`effectiveness_score` is `none` iff `feedback_count = 0`, and otherwise it
equals the arithmetic mean of all recorded scores; in particular the
sequence `[4, 2, 5]` yields means `4`, `3`, `11/3` and counts `1`, `2`,
`3`. -/
theorem add_feedback_running_mean (p sol sys tg : String) (scores : List ℤ) :
    ((applyFeedbacks (freshCase p sol sys tg) scores).feedback_count = scores.length ∧
     ((applyFeedbacks (freshCase p sol sys tg) scores).effectiveness_score = none
        ↔ (applyFeedbacks (freshCase p sol sys tg) scores).feedback_count = 0) ∧
     (applyFeedbacks (freshCase p sol sys tg) scores).effectiveness_score =
       (if scores = [] then none
        else some (((scores.map (Int.cast : ℤ → ℚ)).sum) / scores.length))) ∧
    ((applyFeedbacks (freshCase p sol sys tg) [4]).effectiveness_score = some 4 ∧
     (applyFeedbacks (freshCase p sol sys tg) [4]).feedback_count = 1 ∧
     (applyFeedbacks (freshCase p sol sys tg) [4, 2]).effectiveness_score = some 3 ∧
     (applyFeedbacks (freshCase p sol sys tg) [4, 2]).feedback_count = 2 ∧
     (applyFeedbacks (freshCase p sol sys tg) [4, 2, 5]).effectiveness_score = some (11/3) ∧
     (applyFeedbacks (freshCase p sol sys tg) [4, 2, 5]).feedback_count = 3) := by
  constructor
  · cases scores with
    | nil =>
      refine ⟨rfl, by simp [applyFeedbacks, freshCase], by simp [applyFeedbacks, freshCase]⟩
    | cons e rest =>
      obtain ⟨hm, hc⟩ := applyFeedbacks_fresh p sol sys tg e rest
      refine ⟨by rw [hc]; simp [Nat.add_comm], ?_, ?_⟩
      · rw [hm, hc]
        simp
      · rw [hm]
        simp only [List.map_cons, List.sum_cons, List.length_cons, if_neg (List.cons_ne_nil e rest)]
        congr 1
        push_cast
        ring
  · refine ⟨?_, ?_, ?_, ?_, ?_, ?_⟩
    · rw [(applyFeedbacks_fresh p sol sys tg 4 []).1]; norm_num
    · exact (applyFeedbacks_fresh p sol sys tg 4 []).2
    · rw [(applyFeedbacks_fresh p sol sys tg 4 [2]).1]; norm_num
    · exact (applyFeedbacks_fresh p sol sys tg 4 [2]).2
    · rw [(applyFeedbacks_fresh p sol sys tg 4 [2, 5]).1]; norm_num
    · exact (applyFeedbacks_fresh p sol sys tg 4 [2, 5]).2

/-- C4: text normalisation is not idempotent.  The contraction table is
applied by substring replacement, so the `'q' → 'que'` rule re-fires on its
own output: `normalize("q") = "que"` but `normalize("que") = "queue"`. -/
theorem preprocess_not_idempotent :
    preprocessText "q" = "que" ∧
    preprocessText (preprocessText "q") = "queue" ∧
    preprocessText (preprocessText "q") ≠ preprocessText "q" := by
  refine ⟨by decide, by decide, by decide⟩

/-- C5 counterexample: at a problem description of exactly 50 characters
(with no technical keywords, unknown system, no suggestions), the code gives
confidence 0.5 (the `> 50` threshold is not crossed) while the claim's
"+0.1 per 50 characters" formula gives 0.6. -/
theorem confidence_per50_counterexample :
    calculateConfidence "xxxxxxxxxxxxxxxxxxxxxxxxxxxxxxxxxxxxxxxxxxxxxxxxxx" "Unknown" [] = 1/2 ∧
    confidenceClaim "xxxxxxxxxxxxxxxxxxxxxxxxxxxxxxxxxxxxxxxxxxxxxxxxxx" "Unknown" [] = 3/5 ∧
    calculateConfidence "xxxxxxxxxxxxxxxxxxxxxxxxxxxxxxxxxxxxxxxxxxxxxxxxxx" "Unknown" [] ≠
      confidenceClaim "xxxxxxxxxxxxxxxxxxxxxxxxxxxxxxxxxxxxxxxxxxxxxxxxxx" "Unknown" [] := by
  have hlen : ("xxxxxxxxxxxxxxxxxxxxxxxxxxxxxxxxxxxxxxxxxxxxxxxxxx" : String).length = 50 := by
    decide
  have hkw : technicalKeywords.countP
      (fun k => pyIn k (pyLower "xxxxxxxxxxxxxxxxxxxxxxxxxxxxxxxxxxxxxxxxxxxxxxxxxx")) = 0 := by
    decide
  refine ⟨?_, ?_, ?_⟩
  · unfold calculateConfidence
    rw [hlen, hkw]
    norm_num
  · unfold confidenceClaim
    rw [hlen, hkw]
    norm_num
  · unfold calculateConfidence confidenceClaim
    rw [hlen, hkw]
    norm_num

/-- C5 amended: for every problem description, system label and suggestion
list, the confidence equals base 0.5, plus 0.1 for each of the strict length
thresholds 50, 100 and 200 characters exceeded (at most +0.3), plus 0.2 for
a system label other than "Unknown", plus 0.1 when at least 3 suggestions
were produced, plus 0.05 per matched technical keyword capped at +0.2, with
the final value clamped to `[0, 1]`. -/
theorem confidence_amended_eq (p s : String) (l : List String) :
    calculateConfidence p s l = confidenceAmended p s l := by
  simp only [calculateConfidence, confidenceAmended]
  have hk : 0 ≤ min ((technicalKeywords.countP (fun k => pyIn k (pyLower p)) : ℚ) * (1/20)) (1/5) :=
    le_min (by positivity) (by norm_num)
  have i1 : (0:ℚ) ≤ if 50 < p.length then (1/10:ℚ) else 0 := by split <;> norm_num
  have i2 : (0:ℚ) ≤ if 100 < p.length then (1/10:ℚ) else 0 := by split <;> norm_num
  have i3 : (0:ℚ) ≤ if 200 < p.length then (1/10:ℚ) else 0 := by split <;> norm_num
  have i4 : (0:ℚ) ≤ if s ≠ "Unknown" then (1/5:ℚ) else 0 := by split <;> norm_num
  have i5 : (0:ℚ) ≤ if 3 ≤ l.length then (1/10:ℚ) else 0 := by split <;> norm_num
  rw [eq_comm, max_eq_right (le_min (by linarith) (by norm_num))]
  congr 1
  split_ifs <;> ring

/-- C6: the search fuzzy-match predicate returns `true` for the completely
unrelated equal-length tokens "abcd" and "efgh", while the specified rule
(aligned character agreement above 70% of the shorter length) is violated:
Python's `max(t1, t2, key=len)` and `min(t1, t2, key=len)` both return the
first token on a length tie, so the code compares the first token against
itself. -/
theorem tokens_similar_equal_length_bug :
    tokensSimilar "abcd" "efgh" = true ∧
    tokensSimilarClaim "abcd" "efgh" = false ∧
    countAligned "abcd".toList "efgh".toList = 0 := by
  have e1 : ("abcd" : String).length = 4 := by decide
  have e2 : ("efgh" : String).length = 4 := by decide
  have h1 : countAligned ['a', 'b', 'c', 'd'] ['a', 'b', 'c', 'd'] = 4 := by decide
  have h2 : countAligned ['a', 'b', 'c', 'd'] ['e', 'f', 'g', 'h'] = 0 := by decide
  refine ⟨?_, ?_, by decide⟩
  · unfold tokensSimilar
    simp only [e1, e2]
    norm_num
    simp only [h1, e1]
    norm_num
  · unfold tokensSimilarClaim
    simp only [e1, e2]
    norm_num
    simp only [h2]
    norm_num

/-! ## Tag-list round trip (claim C10) -/

/-- Rebuilding a string from its character list is the identity. -/
theorem mk_toList (s : String) : (⟨s.toList⟩ : String) = s := by cases s; rfl

/-- A non-empty string has a non-empty character list. -/
theorem toList_ne_nil {s : String} (h : s ≠ "") : s.toList ≠ [] :=
  fun hl => h (by rw [← mk_toList s, hl])

/-- Mapping a pointwise-identity function is the identity. -/
theorem map_eq_self_of {α : Type} (l : List α) (f : α → α) (h : ∀ a ∈ l, f a = a) :
    l.map f = l := by
  induction l with
  | nil => rfl
  | cons a as ih =>
    simp only [List.map_cons, h a (List.mem_cons_self a as),
      ih (fun b hb => h b (List.mem_cons_of_mem a hb))]

/-- Splitting a separator-free list yields that single field. -/
theorem splitPAux_no_sep (p : Char → Bool) (l : List Char) (h : ∀ c ∈ l, p c = false) :
    splitPAux p l = [l] := by
  induction l with
  | nil => rfl
  | cons c cs ih =>
    have hc : p c = false := h c (List.mem_cons_self c cs)
    simp only [splitPAux, hc, Bool.false_eq_true, if_false]
    rw [ih (fun d hd => h d (List.mem_cons_of_mem c hd))]

/-- Splitting past a leading separator-free prefix. -/
theorem splitPAux_append_sep (p : Char → Bool) (sep : Char) (l rest : List Char)
    (hl : ∀ c ∈ l, p c = false) (hsep : p sep = true) :
    splitPAux p (l ++ sep :: rest) = l :: splitPAux p rest := by
  induction l with
  | nil => simp [splitPAux, hsep]
  | cons c cs ih =>
    have hc : p c = false := hl c (List.mem_cons_self c cs)
    have hrw := ih (fun d hd => hl d (List.mem_cons_of_mem c hd))
    simp only [List.cons_append, splitPAux, hc, Bool.false_eq_true, if_false]
    rw [show cs.append (sep :: rest) = cs ++ sep :: rest from rfl, hrw]

/-- Splitting inverts joining for separator-free fields. -/
theorem splitPAux_joinSep (sep : Char) (ls : List (List Char)) (hne : ls ≠ [])
    (h : ∀ l ∈ ls, sep ∉ l) :
    splitPAux (fun c => c = sep) (joinSep [sep] ls) = ls := by
  induction ls with
  | nil => exact absurd rfl hne
  | cons l ls ih =>
    cases ls with
    | nil =>
      simp only [joinSep]
      exact splitPAux_no_sep _ l (fun c hc => by
        simp only [decide_eq_false_iff_not]
        intro hceq
        exact h l (List.mem_cons_self l []) (hceq ▸ hc))
    | cons l' ls' =>
      have hj : joinSep [sep] (l :: l' :: ls') = l ++ sep :: joinSep [sep] (l' :: ls') := by
        simp [joinSep]
      rw [hj, splitPAux_append_sep _ sep _ _
            (fun c hc => by
              simp only [decide_eq_false_iff_not]
              intro hceq
              exact h l (List.mem_cons_self l _) (hceq ▸ hc))
            (by simp),
          ih (by simp) (fun m hm => h m (List.mem_cons_of_mem l hm))]

/-- C10: for a list of non-empty, comma-free, untrimmable tags,
`set_tags_list` followed by `get_tags_list` returns exactly the original
list; and for every stored tags value `get_tags_list` returns no empty
tag. -/
theorem tags_roundtrip :
    (∀ (c : Case) (ts : List String),
       (∀ t ∈ ts, t ≠ "" ∧ (',') ∉ t.toList ∧ pyStrip t = t) →
       (Case.set_tags_list c ts).get_tags_list = ts) ∧
    (∀ (c : Case) (t : String), t ∈ c.get_tags_list → t ≠ "") := by
  constructor
  · intro c ts h
    by_cases hts : ts = []
    · subst hts
      simp [Case.set_tags_list, Case.get_tags_list]
    · have hjoin_ne : pyJoin ',' ts ≠ "" := by
        match ts, hts with
        | [t], _ =>
          simp only [pyJoin, List.map_cons, List.map_nil, joinSep]
          intro hmk
          rw [mk_toList] at hmk
          exact (h t (List.mem_cons_self t [])).1 hmk
        | t :: t' :: rest, _ =>
          simp only [pyJoin, List.map_cons, joinSep]
          intro hmk
          have hdata := congrArg String.data hmk
          simp at hdata
      have hsplit : pySplitChar ',' (pyJoin ',' ts) = ts := by
        simp only [pySplitChar, pyJoin]
        rw [show (⟨joinSep [','] (ts.map String.toList)⟩ : String).toList
              = joinSep [','] (ts.map String.toList) from rfl]
        rw [splitPAux_joinSep ',' (ts.map String.toList)
              (by simpa using hts)
              (fun l hl => by
                obtain ⟨t, ht, rfl⟩ := List.mem_map.1 hl
                exact (h t ht).2.1)]
        rw [List.map_map]
        exact map_eq_self_of ts _ (fun t ht => mk_toList t)
      simp only [Case.get_tags_list, Case.set_tags_list, if_neg hts]
      rw [if_neg hjoin_ne, hsplit]
      rw [map_eq_self_of ts pyStrip (fun t ht => (h t ht).2.2)]
      rw [List.filter_eq_self.2 (fun t ht => by simpa using (h t ht).1)]
  · intro c t ht
    simp only [Case.get_tags_list] at ht
    split at ht
    · exact absurd ht (List.not_mem_nil t)
    · have := (List.mem_filter.1 ht).2
      simpa using this

/-- Witness for C10 at a concrete case and tag list. -/
theorem tags_roundtrip_witness :
    (Case.set_tags_list (freshCase "p" "s" "Unknown" "") ["rede", "impressora"]).get_tags_list
      = ["rede", "impressora"] :=
  tags_roundtrip.1 _ ["rede", "impressora"] (by decide)

/-! ## Learned model state (`MLService` instance attributes) -/

/-- One value of the `solution_effectiveness` dict:
`{'helpful': …, 'not_helpful': …, 'weight': …}`. -/
structure EffectivenessEntry where
  helpful : ℕ
  not_helpful : ℕ
  weight : ℚ
deriving DecidableEq, Repr

/-- One element of `feedback_patterns['successful_combinations']`. -/
structure SuccessfulCombination where
  problem_tokens : List String
  system : String
  success_rate : ℚ
  good_aspects : List String
deriving DecidableEq, Repr

/-- The `feedback_patterns` dict of `MLService`.  `solution_patterns` is
initialised by the source but never read or written afterwards. -/
structure FeedbackPatterns where
  system_accuracy : List (String × ℕ × ℕ)
  solution_patterns : List (String × ℚ)
  improvement_requests : List (String × ℕ)
  successful_combinations : List SuccessfulCombination
deriving DecidableEq, Repr

/-- `feedback_patterns` as initialised by `_learn_from_feedback_patterns`. -/
def emptyFeedbackPatterns : FeedbackPatterns := ⟨[], [], [], []⟩

/-- The mutable learned state of one `MLService` instance.  `none` models a
Python attribute that was never created (`hasattr` returns false).  The
trained sklearn classifier pipeline is external code and is modelled as an
opaque prediction function. -/
structure MLState where
  classifier : Option (String → String)
  is_trained : Bool
  solution_effectiveness : Option (List (String × EffectivenessEntry))
  feedback_patterns : Option FeedbackPatterns
  suggestion_ranking_weights : Option (List (String × ℚ))

/-- A freshly constructed, untrained `MLService` with no persisted state on
disk: no classifier, untrained, and none of the learned attributes set. -/
def untrainedState : MLState := ⟨none, false, none, none, none⟩

/-! ## Effectiveness scoring (`MLService._calculate_solution_effectiveness_score`) -/

/-- `MLService._calculate_solution_effectiveness_score` (ml_service.py lines
540-590).  Python `set` objects are modelled as duplicate-free lists
(`pyDedup`); iteration order does not matter because contributions are
summed. -/
def calcSolutionEffectiveness (st : MLState) (solution_text problem_description : String) : ℚ :=
  match st.solution_effectiveness with
  | none => 1
  | some eff =>
    let solution_tokens := pyDedup (semanticTokenizer (preprocessText solution_text))
    let problem_tokens := pyDedup (semanticTokenizer (preprocessText problem_description))
    let union := pyDedup (solution_tokens ++ problem_tokens)
    let contrib : String → ℚ := fun token =>
      match eff.lookup (token ++ "_helpful") with
      | some entry => entry.weight
      | none =>
        match eff.lookup (token ++ "_not_helpful") with
        | some entry => 2 - entry.weight
        | none => 1
    let total_score := (union.map contrib).sum
    let average_score := if 0 < union.length then total_score / union.length else 1
    let average_score :=
      match st.feedback_patterns with
      | none => average_score
      | some fp =>
        fp.successful_combinations.foldl
          (fun score combo =>
            if 2 ≤ ((pyDedup combo.problem_tokens).filter (· ∈ union)).length then
              score * (1 + combo.success_rate * (3/10))
            else score)
          average_score
    max (1/10) (min 3 average_score)

/-- C1: with no learned effectiveness data (`solution_effectiveness` never
created), the effectiveness function returns exactly 1 for every pair of
inputs. -/
theorem effectiveness_neutral_untrained (st : MLState) (solution problem : String)
    (h : st.solution_effectiveness = none) :
    calcSolutionEffectiveness st solution problem = 1 := by
  simp [calcSolutionEffectiveness, h]

/-- Witness for C1 at a concrete untrained state and concrete texts. -/
theorem effectiveness_neutral_untrained_witness :
    untrainedState.solution_effectiveness = none ∧
    calcSolutionEffectiveness untrainedState "Resetar senha temporária" "senha expirada" = 1 :=
  ⟨rfl, effectiveness_neutral_untrained untrainedState _ _ rfl⟩

/-! ## Feedback-pattern learning (`MLService._learn_from_feedback_patterns`) -/

/-- Number of ratings equal to `"helpful"` among the values of one
feedback event's `suggestion_ratings` dict. -/
def helpfulCount (suggestion_ratings : List (String × String)) : ℕ :=
  (suggestion_ratings.map Prod.snd).countP (· = "helpful")

/-- The record appended to `successful_combinations` for one feedback
event. -/
def newSuccessCombo (problem_description detected_system : String)
    (suggestion_ratings : List (String × String))
    (good_aspects : List String) : SuccessfulCombination :=
  ⟨semanticTokenizer (preprocessText problem_description), detected_system,
   (helpfulCount suggestion_ratings : ℚ) / suggestion_ratings.length, good_aspects⟩

/-- `MLService._learn_from_feedback_patterns` (ml_service.py lines 939-989).
The `suggestion_ratings` dict is a list of (index, rating) pairs.  The
condition `helpful_count >= len(suggestion_ratings) / 2` is the exact
integer form `2 * helpful_count ≥ length`.  The extra `≠ []` conjunct on
the append models the `ZeroDivisionError` that `success_rate` raises for an
empty ratings dict (the exception is swallowed by the enclosing `except`,
leaving the list unchanged); the caller guarantees a non-empty dict. -/
def learnFromFeedbackPatterns (st : MLState) (problem_description : String)
    (suggestion_ratings : List (String × String)) (detected_system : String)
    (good_aspects improvements : List String) : MLState :=
  let fp := st.feedback_patterns.getD emptyFeedbackPatterns
  let system_key := if detected_system = "" then "Unknown" else detected_system
  let h := helpfulCount suggestion_ratings
  let n := suggestion_ratings.length
  let cur := ((fp.system_accuracy.lookup system_key).getD (0, 0))
  let cur := if 2 * h ≥ n then (cur.1 + 1, cur.2 + 1) else (cur.1, cur.2 + 1)
  let acc := setAssoc fp.system_accuracy system_key cur
  let imp := improvements.foldl
    (fun m i => setAssoc m i ((m.lookup i).getD 0 + 1)) fp.improvement_requests
  let combos := fp.successful_combinations
  let combos :=
    if 2 * h ≥ n ∧ suggestion_ratings ≠ [] then
      combos ++ [newSuccessCombo problem_description detected_system suggestion_ratings good_aspects]
    else combos
  let combos :=
    if 100 < combos.length then
      (pySortDescBy SuccessfulCombination.success_rate combos).take 100
    else combos
  let fp' := FeedbackPatterns.mk acc fp.solution_patterns imp combos
  { st with feedback_patterns := some fp' }

/-- The stored `successful_combinations` list of a state. -/
def feedbackCombos (st : MLState) : List SuccessfulCombination :=
  (st.feedback_patterns.getD emptyFeedbackPatterns).successful_combinations

/-- C7 counterexample: a feedback event in which exactly half of the
ratings (1 of 2) are "helpful" — not a majority — still appends a
successful-combination record, because the code tests
`helpful_count >= len(ratings) / 2`. -/
theorem successful_combo_tie_counterexample :
    (feedbackCombos (learnFromFeedbackPatterns untrainedState "impressora parada"
        [("0", "helpful"), ("1", "not_helpful")] "Hardware" [] [])).length = 1 ∧
    ¬ [("0", "helpful"), ("1", "not_helpful")].length
        < 2 * helpfulCount [("0", "helpful"), ("1", "not_helpful")] :=
  ⟨by decide, by decide⟩

/-- C7 amended: a successful-combination record is appended exactly when at
least half (not a strict majority) of the ratings in the event are
"helpful"; after every event the list holds at most 100 entries, and when
the cap is exceeded the evicted entries all have success rates no larger
than every kept entry's. -/
theorem successful_combinations_amended (st : MLState) (problem detected : String)
    (ratings : List (String × String)) (ga imp : List String)
    (hn : ratings ≠ []) (hcap : (feedbackCombos st).length ≤ 100) :
    (feedbackCombos (learnFromFeedbackPatterns st problem ratings detected ga imp)).length ≤ 100 ∧
    (¬ 2 * helpfulCount ratings ≥ ratings.length →
       feedbackCombos (learnFromFeedbackPatterns st problem ratings detected ga imp)
         = feedbackCombos st) ∧
    (2 * helpfulCount ratings ≥ ratings.length →
       ∃ removed,
         (feedbackCombos st ++ [newSuccessCombo problem detected ratings ga]).Perm
           (feedbackCombos (learnFromFeedbackPatterns st problem ratings detected ga imp)
             ++ removed) ∧
         ∀ r ∈ removed,
           ∀ k ∈ feedbackCombos (learnFromFeedbackPatterns st problem ratings detected ga imp),
             r.success_rate ≤ k.success_rate) := by
  have hres : feedbackCombos (learnFromFeedbackPatterns st problem ratings detected ga imp) =
      (if 100 < (if 2 * helpfulCount ratings ≥ ratings.length ∧ ratings ≠ []
                 then feedbackCombos st ++ [newSuccessCombo problem detected ratings ga]
                 else feedbackCombos st).length
       then (pySortDescBy SuccessfulCombination.success_rate
              (if 2 * helpfulCount ratings ≥ ratings.length ∧ ratings ≠ []
               then feedbackCombos st ++ [newSuccessCombo problem detected ratings ga]
               else feedbackCombos st)).take 100
       else (if 2 * helpfulCount ratings ≥ ratings.length ∧ ratings ≠ []
             then feedbackCombos st ++ [newSuccessCombo problem detected ratings ga]
             else feedbackCombos st)) := rfl
  by_cases hmaj : 2 * helpfulCount ratings ≥ ratings.length
  · have happ : (if 2 * helpfulCount ratings ≥ ratings.length ∧ ratings ≠ []
                 then feedbackCombos st ++ [newSuccessCombo problem detected ratings ga]
                 else feedbackCombos st)
        = feedbackCombos st ++ [newSuccessCombo problem detected ratings ga] :=
      if_pos ⟨hmaj, hn⟩
    rw [happ] at hres
    by_cases hover : 100 < (feedbackCombos st
        ++ [newSuccessCombo problem detected ratings ga]).length
    · rw [if_pos hover] at hres
      haveI : IsTotal SuccessfulCombination
          (fun a b => b.success_rate ≤ a.success_rate) :=
        ⟨fun a b => (le_total b.success_rate a.success_rate).imp id id⟩
      haveI : IsTrans SuccessfulCombination
          (fun a b => b.success_rate ≤ a.success_rate) :=
        ⟨fun a b c hab hbc => le_trans hbc hab⟩
      have hperm : (pySortDescBy SuccessfulCombination.success_rate
          (feedbackCombos st ++ [newSuccessCombo problem detected ratings ga])).Perm
          (feedbackCombos st ++ [newSuccessCombo problem detected ratings ga]) := by
        unfold pySortDescBy
        exact List.perm_insertionSort _ _
      have hsorted : List.Pairwise (fun a b => b.success_rate ≤ a.success_rate)
          (pySortDescBy SuccessfulCombination.success_rate
            (feedbackCombos st ++ [newSuccessCombo problem detected ratings ga])) := by
        unfold pySortDescBy
        exact List.sorted_insertionSort _ _
      have hsplit := List.take_append_drop 100 (pySortDescBy SuccessfulCombination.success_rate
          (feedbackCombos st ++ [newSuccessCombo problem detected ratings ga]))
      refine ⟨?_, fun h => absurd hmaj h, fun _ => ?_⟩
      · rw [hres, List.length_take]
        exact min_le_left _ _
      · refine ⟨(pySortDescBy SuccessfulCombination.success_rate
            (feedbackCombos st ++ [newSuccessCombo problem detected ratings ga])).drop 100, ?_, ?_⟩
        · rw [hres, hsplit]
          exact hperm.symm
        · intro rm hrm k hk
          rw [hres] at hk
          have hpw : List.Pairwise (fun a b => b.success_rate ≤ a.success_rate)
              ((pySortDescBy SuccessfulCombination.success_rate
              (feedbackCombos st ++ [newSuccessCombo problem detected ratings ga])).take 100 ++
              (pySortDescBy SuccessfulCombination.success_rate
              (feedbackCombos st ++ [newSuccessCombo problem detected ratings ga])).drop 100) := by
            rw [hsplit]; exact hsorted
          exact (List.pairwise_append.1 hpw).2.2 k hk rm hrm
    · rw [if_neg hover] at hres
      refine ⟨?_, fun h => absurd hmaj h, fun _ => ?_⟩
      · rw [hres]
        simp only [List.length_append, List.length_cons, List.length_nil] at hover ⊢
        omega
      · exact ⟨[], by rw [hres, List.append_nil], by simp⟩
  · have happ : (if 2 * helpfulCount ratings ≥ ratings.length ∧ ratings ≠ []
                 then feedbackCombos st ++ [newSuccessCombo problem detected ratings ga]
                 else feedbackCombos st) = feedbackCombos st :=
      if_neg (fun hand => hmaj hand.1)
    rw [happ, if_neg (by omega)] at hres
    exact ⟨by rw [hres]; exact hcap, fun _ => hres, fun h => absurd h hmaj⟩

/-- Witness for C7 at a concrete state and feedback event. -/
theorem successful_combinations_amended_witness :
    ([("0", "helpful")] : List (String × String)) ≠ [] ∧
    (feedbackCombos untrainedState).length ≤ 100 ∧
    (feedbackCombos (learnFromFeedbackPatterns untrainedState "senha expirada"
        [("0", "helpful")] "Tasy" ["relevant"] [])).length ≤ 100 :=
  ⟨by decide, by decide,
   (successful_combinations_amended untrainedState "senha expirada" "Tasy"
      [("0", "helpful")] ["relevant"] [] (by decide) (by decide)).1⟩

/-! ## System classification (`MLService._detect_system_type`) -/

/-- `MLService.system_keywords`, in Python dict (insertion) order. -/
def systemKeywords : List (String × List String) :=
  [("Tasy", ["tasy", "hospitalar", "hospital", "prontuario", "paciente", "atendimento", "medico",
             "record", "patient", "medical", "clinical", "clinico", "internacao", "alta",
             "prescricao", "prescription", "medication", "medicamento"]),
   ("SGU", ["sgu", "sistema gestao", "gestao hospitalar", "modulo sgu", "management system",
            "hospital management", "sgu suite", "suite sgu", "gestao", "management"]),
   ("SGU Card", ["sgu card", "cartao", "card", "credenciamento", "carteirinha", "credential",
                 "badge", "identification", "id card", "access card", "cartao acesso"]),
   ("Autorizador", ["autorizador", "autorizacao", "autorizar", "procedimento", "guia",
                    "authorization", "authorize", "procedure", "guide", "approval",
                    "aprovacao", "liberacao", "release"]),
   ("AutSC", ["autsc", "aut sc", "autorizador sc", "santa catarina", "sc authorization"]),
   ("Contábil", ["contabil", "accounting", "financeiro", "financial", "contabilidade",
                 "fiscal", "tax", "imposto", "lancamento", "entry"]),
   ("ERP", ["erp", "enterprise resource", "gestao empresarial", "business management",
            "sistema integrado", "integrated system"]),
   ("Exchange Online", ["exchange", "email", "outlook", "mail", "correio", "office365",
                        "o365", "microsoft exchange", "webmail"]),
   ("Hardware", ["hardware", "computador", "computer", "pc", "notebook", "laptop",
                 "impressora", "printer", "monitor", "teclado", "keyboard", "mouse"]),
   ("Portal Interno", ["portal interno", "internal portal", "intranet", "portal corporativo",
                       "corporate portal", "employee portal", "funcionario"]),
   ("Rede SMB", ["rede smb", "smb network", "file sharing", "compartilhamento arquivo",
                 "shared folder", "pasta compartilhada", "network drive"]),
   ("SGUSuite", ["sgu suite", "sgusuite", "suite sgu", "sgu sistema completo"]),
   ("VPN FortiClient", ["vpn", "forticlient", "forti client", "remote access", "acesso remoto",
                        "conexao remota", "remote connection", "trabalho remoto"]),
   ("Healthcare", ["saude", "health", "emr", "ehr", "clinico", "diagnostico", "exame",
                   "clinical", "diagnosis", "exam", "teste", "laboratorio", "lab"]),
   ("Administrative", ["administrativo", "admin", "rh", "financeiro", "contabil", "gestao",
                       "human resources", "hr", "payroll", "folha pagamento"]),
   ("Network", ["rede", "network", "router", "switch", "firewall", "ip", "dns", "dhcp",
                "conectividade", "connectivity", "internet", "wifi", "wireless"]),
   ("Database", ["banco", "database", "sql", "mysql", "postgres", "oracle", "mongodb",
                 "dados", "data", "base dados", "bd", "db"]),
   ("Application Server", ["servidor", "server", "apache", "nginx", "tomcat", "iis", "aplicacao",
                           "application", "app server", "web server", "servico", "service"])]

/-- Keyword score of one system label against the lowercased problem
text: the number of its keywords occurring as substrings. -/
def systemScore (problem_lower : String) (keywords : List String) : ℕ :=
  keywords.countP (fun k => pyIn k problem_lower)

/-- First label attaining the maximum score, in dict order (Python's
`max(scores.keys(), key=lambda k: scores[k])` keeps the first maximal
key). -/
def firstMaxLabel (scores : List (String × ℕ)) : String :=
  (scores.foldl (fun best p => if best.2 < p.2 then p else best) ("", 0)).1

/-- `MLService._detect_system_type` (ml_service.py lines 299-325): keyword
scoring with first-maximum tie-break, then the trained statistical
classifier (modelled as an opaque function, `none` while untrained or on a
prediction error), else "Unknown". -/
def detectSystemType (st : MLState) (problem_description : String) : String :=
  let problem_lower := pyLower problem_description
  let scores := systemKeywords.map (fun p => (p.1, systemScore problem_lower p.2))
  if 0 < (scores.map Prod.snd).foldl max 0 then firstMaxLabel scores
  else
    match st.classifier, st.is_trained with
    | some predict, true => predict problem_description
    | _, _ => "Unknown"

/-! ## Model info and bulk delete (claims C9) -/

/-- The fields of the `MLService.get_model_info` result dict (ml_service.py
lines 1123-1162) that the claims refer to. -/
structure ModelInfo where
  is_trained : Bool
  has_system_classifier : Bool
  supported_systems : List String
  learning_active : Bool
deriving DecidableEq, Repr

/-- `MLService.get_model_info`. -/
def getModelInfo (st : MLState) : ModelInfo :=
  { is_trained := st.is_trained
    has_system_classifier := st.classifier.isSome
    supported_systems := systemKeywords.map Prod.fst
    learning_active := 0 < (st.solution_effectiveness.getD []).length }

/-- Application state seen by the delete-all route: the stored cases and
the process-wide `MLService` state. -/
structure AppState where
  cases : List Case
  ml : MLState

/-- `CaseService.delete_all_cases` (case_service.py lines 470-507), success
path of the database bulk delete: with no stored cases it returns 0 and
changes nothing; otherwise it removes every case and returns the count.
(The database-failure fallback clears the in-memory store with the same
observable result and is not modelled separately.) -/
def deleteAllCasesService (cases : List Case) : ℕ × List Case :=
  if cases = [] then (0, cases)
  else (cases.length, [])

/-- The `/delete_all_cases` route handler (routes.py lines 538-570): when
the current case count is zero it only flashes a message and returns;
otherwise it bulk-deletes and, when at least one case was removed, sets
`ml_service.is_trained = False`. -/
def deleteAllCasesRoute (st : AppState) : AppState :=
  let case_count := st.cases.length
  if case_count = 0 then st
  else
    let res := deleteAllCasesService st.cases
    let st' : AppState := { st with cases := res.2 }
    if 0 < res.1 then { st' with ml := { st'.ml with is_trained := false } } else st'

/-- C9 counterexample: running the delete-all route on a state with zero
stored cases but a trained model (reachable by training on ≥ 5 cases and
then deleting them one by one, or by loading persisted metadata into an
empty database) leaves `is_trained` true in the next `get_model_info`: the
route returns early without resetting the flag. -/
theorem delete_all_counterexample :
    (deleteAllCasesRoute ⟨[], { untrainedState with is_trained := true }⟩).cases.length = 0 ∧
    (getModelInfo (deleteAllCasesRoute
        ⟨[], { untrainedState with is_trained := true }⟩).ml).is_trained = true :=
  ⟨rfl, rfl⟩

/-- C9 amended: provided at least one case is stored when the delete-all
operation runs, afterwards the case count is 0 and the next
`get_model_info` reports `is_trained = false`. -/
theorem delete_all_resets (st : AppState) (h : st.cases ≠ []) :
    (deleteAllCasesRoute st).cases.length = 0 ∧
    (getModelInfo (deleteAllCasesRoute st).ml).is_trained = false := by
  have hlen : st.cases.length ≠ 0 := by
    intro h0
    exact h (List.length_eq_zero.1 h0)
  have hpos : 0 < st.cases.length := Nat.pos_of_ne_zero hlen
  simp only [deleteAllCasesRoute, deleteAllCasesService, if_neg hlen, if_neg h, getModelInfo]
  rw [if_pos hpos]
  exact ⟨rfl, rfl⟩

/-! ## Solution generation and ranking (`MLService`) -/

/-- Python `ch.islower()` restricted to the Latin characters in play. -/
def pyIsLowerChar (c : Char) : Bool :=
  ('a' ≤ c && c ≤ 'z') ||
  (c = 'à' || c = 'á' || c = 'â' || c = 'ã' || c = 'ä' || c = 'è' || c = 'é' || c = 'ê' ||
   c = 'ë' || c = 'ì' || c = 'í' || c = 'î' || c = 'ï' || c = 'ò' || c = 'ó' || c = 'ô' ||
   c = 'õ' || c = 'ö' || c = 'ù' || c = 'ú' || c = 'û' || c = 'ü' || c = 'ç' || c = 'ñ')

/-- Python `ch.isupper()` restricted to the Latin characters in play. -/
def pyIsUpperChar (c : Char) : Bool :=
  ('A' ≤ c && c ≤ 'Z') ||
  (c = 'À' || c = 'Á' || c = 'Â' || c = 'Ã' || c = 'Ä' || c = 'È' || c = 'É' || c = 'Ê' ||
   c = 'Ë' || c = 'Ì' || c = 'Í' || c = 'Î' || c = 'Ï' || c = 'Ò' || c = 'Ó' || c = 'Ô' ||
   c = 'Õ' || c = 'Ö' || c = 'Ù' || c = 'Ú' || c = 'Û' || c = 'Ü' || c = 'Ç' || c = 'Ñ')

/-- Python `ch.upper()` for a single character, inverse of `pyLowerChar`. -/
def pyUpperChar (c : Char) : Char :=
  if 'a' ≤ c ∧ c ≤ 'z' then Char.ofNat (c.toNat - 32)
  else match c with
    | 'à' => 'À' | 'á' => 'Á' | 'â' => 'Â' | 'ã' => 'Ã' | 'ä' => 'Ä'
    | 'è' => 'È' | 'é' => 'É' | 'ê' => 'Ê' | 'ë' => 'Ë'
    | 'ì' => 'Ì' | 'í' => 'Í' | 'î' => 'Î' | 'ï' => 'Ï'
    | 'ò' => 'Ò' | 'ó' => 'Ó' | 'ô' => 'Ô' | 'õ' => 'Õ' | 'ö' => 'Ö'
    | 'ù' => 'Ù' | 'ú' => 'Ú' | 'û' => 'Û' | 'ü' => 'Ü'
    | 'ç' => 'Ç' | 'ñ' => 'Ñ'
    | c => c

/-- The past-participle → infinitive table of `_convert_to_infinitive`,
in Python dict order. -/
def infinitiveConversions : List (String × String) :=
  [("corrigida", "corrigir"), ("corrigido", "corrigir"),
   ("analisada", "analisar"), ("analisado", "analisar"),
   ("ajustada", "ajustar"), ("ajustado", "ajustar"),
   ("verificada", "verificar"), ("verificado", "verificar"),
   ("checada", "checar"), ("checado", "checar"),
   ("configurada", "configurar"), ("configurado", "configurar"),
   ("resetada", "resetar"), ("resetado", "resetar"),
   ("reiniciada", "reiniciar"), ("reiniciado", "reiniciar"),
   ("atualizada", "atualizar"), ("atualizado", "atualizar"),
   ("validada", "validar"), ("validado", "validar"),
   ("testada", "testar"), ("testado", "testar"),
   ("consultada", "consultar"), ("consultado", "consultar"),
   ("documentada", "documentar"), ("documentado", "documentar"),
   ("monitorada", "monitorar"), ("monitorado", "monitorar")]

/-- `MLService._convert_to_infinitive` (ml_service.py lines 422-466):
lowercase, apply the conversion replacements, and restore a leading capital
when the original started with one. -/
def convertToInfinitive (text : String) : String :=
  let result := applyReplacements infinitiveConversions (pyLower text)
  match result.toList, text.toList with
  | r :: rs, t :: _ =>
    if pyIsLowerChar r && pyIsUpperChar t then ⟨pyUpperChar r :: rs⟩ else result
  | _, _ => result

/-- The canned solution lists of `_generate_solutions`. -/
def authSolutions : List String :=
  ["Verificar se o usuário está digitando a senha corretamente",
   "Resetar senha do usuário no sistema administrativo",
   "Verificar se a conta não está bloqueada por tentativas",
   "Checar configurações de política de senhas",
   "Validar sincronização com Active Directory se aplicável"]

/-- Network-issue canned solutions. -/
def networkSolutions : List String :=
  ["Testar conectividade com ping para o servidor",
   "Verificar configurações de proxy e firewall",
   "Reiniciar adaptador de rede no computador",
   "Checar cabos de rede e switches",
   "Verificar configurações DNS e DHCP",
   "Testar conectividade em outro computador"]

/-- Database/performance canned solutions. -/
def dbSolutions : List String :=
  ["Verificar logs de erro do banco de dados",
   "Analisar queries lentas em execução",
   "Checar espaço disponível no servidor",
   "Reiniciar serviços do banco de dados",
   "Verificar índices e estatísticas do banco",
   "Monitorar uso de CPU e memória do servidor"]

/-- System/application-error canned solutions. -/
def errorSolutions : List String :=
  ["Consultar logs de aplicação para detalhes do erro",
   "Verificar se problema é reproduzível",
   "Checar atualizações pendentes do sistema",
   "Validar integridade dos arquivos de sistema",
   "Reiniciar serviços relacionados ao problema"]

/-- Hardware/infrastructure canned solutions. -/
def hardwareSolutions : List String :=
  ["Verificar conexões físicas dos equipamentos",
   "Testar em outro computador para isolar problema",
   "Verificar drivers de dispositivos",
   "Checar logs de eventos do Windows",
   "Reiniciar equipamentos envolvidos"]

/-- Generic canned solutions used when no pattern matched. -/
def genericSolutions : List String :=
  ["Verificar logs do sistema para identificar causa raiz",
   "Reproduzir problema com usuário de teste",
   "Documentar passos exatos que levaram ao problema",
   "Checar se problema afeta outros usuários",
   "Verificar últimas alterações no sistema"]

/-- Final fallback of `_generate_solutions` when even the generic branch
produced nothing. -/
def lastResortSolutions : List String :=
  ["Analisar logs detalhados do sistema",
   "Contatar suporte especializado",
   "Documentar cenário completo do problema"]

/-- `MLService._get_diversified_system_solutions` (ml_service.py lines
628-661). -/
def getDiversifiedSystemSolutions (system_type : String)
    (problem_tokens : List String) : List String :=
  let solutions : List String :=
    if system_type = "Tasy" then
      [if problem_tokens.contains "login" || problem_tokens.contains "senha" then
         "Verificar usuário no cadastro de funcionários do Tasy"
       else if problem_tokens.contains "impressao" || problem_tokens.contains "relatorio" then
         "Checar configuração de impressoras no Tasy"
       else if problem_tokens.contains "lento" || problem_tokens.contains "performance" then
         "Verificar performance de queries no banco Tasy"
       else "Consultar logs específicos do módulo Tasy afetado"]
    else if system_type = "SGU" then
      [if problem_tokens.contains "autorizacao" then
         "Verificar regras de autorização no SGU"
       else if problem_tokens.contains "relatorio" then
         "Checar permissões de relatórios no SGU"
       else "Validar configurações de módulos SGU"]
    else if system_type = "Autorizador" then
      [if problem_tokens.contains "guia" || problem_tokens.contains "procedimento" then
         "Verificar fila de processamento de guias"
       else if problem_tokens.contains "operadora" then
         "Checar conectividade com webservices das operadoras"
       else "Analisar logs de autorização em tempo real"]
    else []
  (solutions ++ ["Considerar abertura de chamado Nexdow se necessário"]).take 2

/-- `MLService._generate_solutions` (ml_service.py lines 327-420).
`sampler` models `random.sample` (spec §9: an injectable non-determinism
hook); the theorems below hold for every sampler. -/
def generateSolutions (sampler : List String → ℕ → List String)
    (problem_description system_type : String) : List String :=
  let problem_tokens := pyDedup (semanticTokenizer (preprocessText problem_description))
  let suggestions : List String := []
  let suggestions :=
    if ["senha", "password", "login", "acesso", "autenticacao", "esqueci"].any
        (problem_tokens.contains ·) then
      suggestions ++ authSolutions.take 3
    else suggestions
  let suggestions :=
    if ["conectar", "conexao", "rede", "network", "internet"].any
        (problem_tokens.contains ·) then
      suggestions ++ networkSolutions.take 2
    else suggestions
  let suggestions :=
    if ["banco", "database", "sql", "lento", "slow", "performance"].any
        (problem_tokens.contains ·) then
      suggestions ++ dbSolutions.take 2
    else suggestions
  let suggestions :=
    if ["erro", "error", "falha", "exception", "crash"].any
        (problem_tokens.contains ·) then
      suggestions ++ errorSolutions.take 2
    else suggestions
  let suggestions :=
    if ["hardware", "impressora", "printer", "computador", "pc"].any
        (problem_tokens.contains ·) then
      suggestions ++ hardwareSolutions.take 2
    else suggestions
  let suggestions := suggestions ++ getDiversifiedSystemSolutions system_type problem_tokens
  let suggestions := if suggestions = [] then genericSolutions.take 3 else suggestions
  let unique := pyDedup suggestions
  let unique :=
    if 5 < unique.length then
      unique.take 3 ++ sampler (unique.drop 3) (min 2 (unique.length - 3))
    else unique
  if unique ≠ [] then unique.take 5 else lastResortSolutions

/-- `MLService._apply_intelligent_final_ranking` (ml_service.py lines
592-626). -/
def applyIntelligentFinalRanking (st : MLState) (suggestions : List String)
    (problem_description : String) : List String :=
  let problem_tokens := pyDedup (semanticTokenizer (preprocessText problem_description))
  let scored := suggestions.map (fun suggestion =>
    let effectiveness_score := calcSolutionEffectiveness st suggestion problem_description
    let suggestion_tokens := pyDedup (semanticTokenizer (preprocessText suggestion))
    let ranking_bonus :=
      ((suggestion_tokens.filter (problem_tokens.contains ·)).map
        (fun token =>
          match st.suggestion_ranking_weights with
          | some weights => ((weights.lookup token).map id).getD 0
          | none => 0)).sum
    (suggestion, effectiveness_score + ranking_bonus * (1/5)))
  (pySortDescBy Prod.snd scored).map Prod.fst

/-- `MLService._rank_solutions_by_feedback` (ml_service.py lines 663-723).
Returns the input unchanged when `solution_effectiveness` is absent or
empty. -/
def rankSolutionsByFeedback (st : MLState) (solutions : List String)
    (problem_description : String) : List String :=
  match st.solution_effectiveness with
  | none => solutions
  | some eff =>
    if eff = [] then solutions
    else
      let problem_tokens := pyDedup (semanticTokenizer (preprocessText problem_description))
      let scored := solutions.map (fun solution =>
        let solution_tokens := pyDedup (semanticTokenizer (preprocessText solution))
        let union := pyDedup (problem_tokens ++ solution_tokens)
        let acc := union.foldl (fun (a : ℚ × ℚ) token =>
          match eff.lookup (token ++ "_helpful") with
          | some entry =>
            let total_feedback := entry.helpful + entry.not_helpful
            if 0 < total_feedback then
              let token_effectiveness := (entry.helpful : ℚ) / total_feedback
              let feedback_weight := (min total_feedback 10 : ℚ) / 10
              (a.1 + token_effectiveness * feedback_weight, a.2 + feedback_weight)
            else a
          | none => a) (0, 0)
        let effectiveness_score :=
          if 0 < acc.2 then 1/5 + (acc.1 / acc.2) * (9/5) else 1
        (solution, effectiveness_score))
      (pySortDescBy Prod.snd scored).map Prod.fst

/-- The fallback suggestion list of
`_generate_solutions_with_similar_cases`. -/
def analysisFallbackSolutions : List String :=
  ["Verificar logs detalhados do sistema para identificar a causa raiz",
   "Reproduzir o problema em ambiente de teste",
   "Consultar base de conhecimento interna",
   "Contatar suporte especializado se necessário",
   "Documentar cenário completo para análise"]

/-- Final two steps of `_generate_solutions_with_similar_cases`: substitute
the fallback list when empty, truncate to 5, and convert every entry to
infinitive form. -/
def finalizeSuggestions (suggestions : List String) : List String :=
  let suggestions := if suggestions = [] then analysisFallbackSolutions else suggestions
  (suggestions.take 5).map convertToInfinitive

/-- `MLService._generate_solutions_with_similar_cases` (ml_service.py lines
468-538). -/
def generateSolutionsWithSimilarCases (st : MLState)
    (sampler : List String → ℕ → List String)
    (problem_description system_type : String) (similar_cases : List Case) : List String :=
  let similar_solutions : List (String × ℚ) :=
    (similar_cases.take 5).foldl (fun acc case =>
      if case.solution ≠ "" then
        let solution := convertToInfinitive (pyStrip case.solution)
        if solution ≠ "" ∧ ¬ (acc.map Prod.fst).contains solution then
          acc ++ [(solution, calcSolutionEffectiveness st solution problem_description)]
        else acc
      else acc) []
  let similar_solutions := pySortDescBy Prod.snd similar_solutions
  let suggestions := (similar_solutions.take 3).map Prod.fst
  let suggestions :=
    if suggestions.length < 4 then
      let pattern_solutions := generateSolutions sampler problem_description system_type
      let scored := pattern_solutions.foldl (fun acc solution =>
        let converted := convertToInfinitive solution
        if ¬ suggestions.contains converted then
          acc ++ [(converted, calcSolutionEffectiveness st converted problem_description)]
        else acc) []
      let scored := pySortDescBy Prod.snd scored
      scored.foldl (fun sugg s => if sugg.length < 5 then sugg ++ [s.1] else sugg) suggestions
    else suggestions
  let suggestions :=
    if st.suggestion_ranking_weights.isSome then
      applyIntelligentFinalRanking st suggestions problem_description
    else suggestions
  let suggestions := rankSolutionsByFeedback st suggestions problem_description
  finalizeSuggestions suggestions

/-- `models.SolutionSuggestion` (the transient analysis result). -/
structure SolutionSuggestion where
  problem_description : String
  suggested_solutions : List String
  confidence : ℚ
  system_type : String
  similar_cases : List Case

/-- The body of the `try` block of `MLService.analyze_problem`
(ml_service.py lines 271-289).  The shallow embedding of the pipeline is
total, so the core always returns `Except.ok`; the `Except` type records
that Python may abort this block with an exception at any point. -/
def analyzeProblemCore (st : MLState) (sampler : List String → ℕ → List String)
    (problem_description : String) (similar_cases : List Case) :
    Except String SolutionSuggestion :=
  let system_type := detectSystemType st problem_description
  let suggestions := generateSolutionsWithSimilarCases st sampler problem_description
    system_type similar_cases
  let confidence := calculateConfidence problem_description system_type suggestions
  Except.ok ⟨problem_description, suggestions, confidence, system_type, []⟩

/-- The `except` branch of `analyze_problem` (ml_service.py lines 290-297):
the best-effort fallback suggestion. -/
def mlErrorFallback (problem_description : String) : SolutionSuggestion :=
  ⟨problem_description,
   ["Erro na análise ML. Consulte a base de conhecimento manualmente."],
   1/10, "Unknown", []⟩

/-- The exception handler of `analyze_problem`: any error is mapped to the
fallback suggestion instead of propagating. -/
def analyzeRecover (problem_description : String) :
    Except String SolutionSuggestion → SolutionSuggestion
  | .ok s => s
  | .error _ => mlErrorFallback problem_description

/-- `MLService.analyze_problem`. -/
def analyzeProblem (st : MLState) (sampler : List String → ℕ → List String)
    (problem_description : String) (similar_cases : List Case) : SolutionSuggestion :=
  analyzeRecover problem_description (analyzeProblemCore st sampler problem_description similar_cases)

/-- The confidence score is always within `[0, 1]` (indeed within
`[0.5, 1]` on the success path). -/
theorem calcConfidence_bounds (p s : String) (l : List String) :
    0 ≤ calculateConfidence p s l ∧ calculateConfidence p s l ≤ 1 := by
  simp only [calculateConfidence]
  have hk : (0:ℚ) ≤ min ((technicalKeywords.countP (fun k => pyIn k (pyLower p)) : ℚ)
      * (1/20)) (1/5) :=
    le_min (by positivity) (by norm_num)
  constructor
  · refine le_min ?_ (by norm_num)
    split_ifs <;> linarith
  · exact min_le_right _ 1

/-- The finalisation step always yields between 1 and 5 suggestions. -/
theorem finalizeSuggestions_wellformed (s : List String) :
    finalizeSuggestions s ≠ [] ∧ (finalizeSuggestions s).length ≤ 5 := by
  unfold finalizeSuggestions
  by_cases h : s = []
  · subst h
    refine ⟨by decide, by decide⟩
  · refine ⟨?_, ?_⟩
    · simp only [if_neg h, ne_eq, List.map_eq_nil_iff, List.take_eq_nil_iff]
      push_neg
      exact ⟨by norm_num, h⟩
    · simp only [if_neg h, List.length_map, List.length_take]
      exact min_le_left _ _

/-- C8: for every state, sampler and input, `analyze_problem` returns a
well-formed `SolutionSuggestion` — a non-empty list of at most five
suggestions and a confidence in `[0, 1]` — and the exception handler maps
every internal error to the best-effort fallback suggestion (reduced
confidence 0.1, system "Unknown") instead of raising. -/
theorem analyze_always_wellformed :
    (∀ (st : MLState) (sampler : List String → ℕ → List String)
       (problem : String) (similar : List Case),
       (analyzeProblem st sampler problem similar).suggested_solutions ≠ [] ∧
       (analyzeProblem st sampler problem similar).suggested_solutions.length ≤ 5 ∧
       0 ≤ (analyzeProblem st sampler problem similar).confidence ∧
       (analyzeProblem st sampler problem similar).confidence ≤ 1) ∧
    (∀ (problem err : String),
       analyzeRecover problem (Except.error err) = mlErrorFallback problem ∧
       (mlErrorFallback problem).suggested_solutions ≠ [] ∧
       (mlErrorFallback problem).confidence = 1/10 ∧
       (mlErrorFallback problem).system_type = "Unknown") := by
  constructor
  · intro st sampler problem similar
    have hwf : generateSolutionsWithSimilarCases st sampler problem
        (detectSystemType st problem) similar ≠ [] ∧
        (generateSolutionsWithSimilarCases st sampler problem
          (detectSystemType st problem) similar).length ≤ 5 := by
      unfold generateSolutionsWithSimilarCases
      exact finalizeSuggestions_wellformed _
    have hcb := calcConfidence_bounds problem (detectSystemType st problem)
      (generateSolutionsWithSimilarCases st sampler problem
        (detectSystemType st problem) similar)
    exact ⟨hwf.1, hwf.2, hcb.1, hcb.2⟩
  · intro problem err
    exact ⟨rfl, by simp [mlErrorFallback], rfl, rfl⟩

/-- Witness for C9 at a one-case store. -/
theorem delete_all_resets_witness :
    ([freshCase "erro tasy" "reiniciar servico" "Tasy" ""] : List Case) ≠ [] ∧
    (deleteAllCasesRoute ⟨[freshCase "erro tasy" "reiniciar servico" "Tasy" ""],
        { untrainedState with is_trained := true }⟩).cases.length = 0 ∧
    (getModelInfo (deleteAllCasesRoute ⟨[freshCase "erro tasy" "reiniciar servico" "Tasy" ""],
        { untrainedState with is_trained := true }⟩).ml).is_trained = false :=
  ⟨by decide,
   delete_all_resets ⟨[freshCase "erro tasy" "reiniciar servico" "Tasy" ""],
     { untrainedState with is_trained := true }⟩ (by decide)⟩

/-! ## TF-IDF similarity (`CaseService.find_similar_cases`)

The similarity search delegates vectorisation to sklearn's
`TfidfVectorizer` and `cosine_similarity` (external library code).  These
are modelled at the mathematical interface documented by sklearn: raw term
counts over the analyzer's n-grams, smoothed idf
`ln((1+n)/(1+df)) + 1`, and cosine similarity of the weight vectors
(l2 normalisation cancels in the cosine).  Logarithms and square roots
force this part of the development into `ℝ` and `noncomputable`
definitions. -/

/-- All `n`-grams (space-joined windows of `n` consecutive tokens). -/
def ngramsOf (toks : List String) (n : ℕ) : List String :=
  (List.range (toks.length + 1 - n)).map (fun i => pyJoin ' ' ((toks.drop i).take n))

/-- Document analyzer of `MLService.semantic_vectorizer`:
`_semantic_preprocess`, `_semantic_tokenizer`, n-grams of length 1–4. -/
def semanticAnalyzerDoc (d : String) : List String :=
  let toks := semanticTokenizer (semanticPreprocess d)
  ngramsOf toks 1 ++ ngramsOf toks 2 ++ ngramsOf toks 3 ++ ngramsOf toks 4

/-- Modelled from the spec: sklearn's built-in English stop-word list used
by the fallback `TfidfVectorizer(stop_words='english')` in
`CaseService.__init__` (an external library constant, not part of this
repository's sources).  The theorems below do not depend on the exact
membership of this list — stop-word filtering only removes tokens, which
preserves the disjointness they rely on. -/
def sklearnEnglishStopWords : List String :=
  ["a", "about", "above", "across", "after", "again", "against", "all", "almost",
   "alone", "along", "already", "also", "although", "always", "am", "among",
   "an", "and", "another", "any", "anyone", "anything", "anywhere", "are",
   "around", "as", "at", "back", "be", "became", "because", "become", "becomes",
   "been", "before", "behind", "being", "below", "between", "both", "but", "by",
   "can", "cannot", "could", "did", "do", "does", "down", "during", "each",
   "either", "else", "elsewhere", "enough", "etc", "even", "ever", "every",
   "everyone", "everything", "everywhere", "few", "find", "for", "formerly",
   "from", "front", "full", "further", "get", "give", "go", "had", "has",
   "have", "he", "hence", "her", "here", "hers", "herself", "him", "himself",
   "his", "how", "however", "i", "ie", "if", "in", "indeed", "into", "is",
   "it", "its", "itself", "last", "latter", "least", "less", "many", "may",
   "me", "meanwhile", "might", "mine", "more", "moreover", "most", "mostly",
   "much", "must", "my", "myself", "name", "namely", "neither", "never",
   "next", "no", "nobody", "none", "nor", "not", "nothing", "now", "nowhere",
   "of", "off", "often", "on", "once", "one", "only", "onto", "or", "other",
   "others", "otherwise", "our", "ours", "ourselves", "out", "over", "own",
   "per", "perhaps", "please", "rather", "re", "same", "see", "seem",
   "seemed", "seeming", "seems", "she", "should", "since", "so", "some",
   "somehow", "someone", "something", "sometime", "sometimes", "somewhere",
   "still", "such", "than", "that", "the", "their", "them", "themselves",
   "then", "thence", "there", "thereafter", "thereby", "therefore", "these",
   "they", "this", "those", "though", "through", "throughout", "thus", "to",
   "together", "too", "toward", "towards", "under", "until", "up", "upon",
   "us", "very", "via", "was", "we", "well", "were", "what", "whatever",
   "when", "whence", "whenever", "where", "whereafter", "whereas", "whereby",
   "wherein", "whereupon", "wherever", "whether", "which", "while", "whither",
   "who", "whoever", "whole", "whom", "whose", "why", "will", "with",
   "within", "without", "would", "yet", "you", "your", "yours", "yourself",
   "yourselves"]

/-- Tokenisation of sklearn's default analyzer: lowercase, then the token
pattern `\w\w+` (maximal runs of word characters of length ≥ 2). -/
def sklearnTokenize (d : String) : List String :=
  ((splitPAux (fun c => !isPyWordChar c) (pyLower d).toList).map
      (fun l => (⟨l⟩ : String))).filter (fun t => decide (2 ≤ t.length))

/-- Document analyzer of the fallback `CaseService.vectorizer`
(`TfidfVectorizer(stop_words='english', max_features=1000)`):
default tokenisation, English stop-word removal, unigrams only. -/
def fallbackAnalyzerDoc (d : String) : List String :=
  (sklearnTokenize d).filter (fun t => !(sklearnEnglishStopWords.contains t))

/-- Configuration of one `TfidfVectorizer`: the analyzer, the maximum
document count implied by `max_df` (as a function of the corpus size,
`int(max_df * n)`), and `max_features`. -/
structure VectorizerCfg where
  analyze : String → List String
  maxDocCount : ℕ → ℕ
  maxFeatures : ℕ

/-- `MLService.semantic_vectorizer`: `ngram_range=(1,4)`, `max_df=0.9`
(`int(0.9 * n) = 9n/10` rounded towards zero), `max_features=5000`. -/
def semanticCfg : VectorizerCfg := ⟨semanticAnalyzerDoc, fun n => 9 * n / 10, 5000⟩

/-- `CaseService.vectorizer`: default `max_df=1.0`, `max_features=1000`. -/
def fallbackCfg : VectorizerCfg := ⟨fallbackAnalyzerDoc, fun n => n, 1000⟩

/-- Number of documents whose analyzed form contains the term. -/
def docFreq (cfg : VectorizerCfg) (docs : List String) (t : String) : ℕ :=
  docs.countP (fun d => (cfg.analyze d).contains t)

/-- Total number of occurrences of the term across the corpus (used by
sklearn's `max_features` selection). -/
def corpusCount (cfg : VectorizerCfg) (docs : List String) (t : String) : ℕ :=
  (docs.map (fun d => (cfg.analyze d).count t)).sum

/-- The fitted vocabulary: all analyzed terms, with terms above the
`max_df` document count removed, and capped at `max_features` terms kept by
descending corpus frequency (numpy's order among frequency ties is
unspecified; this model keeps first-seen order, which none of the theorems
depend on). -/
def prunedVocab (cfg : VectorizerCfg) (docs : List String) : List String :=
  let vocab := pyDedup ((docs.map cfg.analyze).flatten)
  let vocab := vocab.filter (fun t => decide (docFreq cfg docs t ≤ cfg.maxDocCount docs.length))
  if cfg.maxFeatures < vocab.length then
    (List.insertionSort (fun a b => corpusCount cfg docs b ≤ corpusCount cfg docs a) vocab).take
      cfg.maxFeatures
  else vocab

/-- Smoothed inverse document frequency: `ln((1+n)/(1+df)) + 1`. -/
noncomputable def idf (cfg : VectorizerCfg) (docs : List String) (t : String) : ℝ :=
  Real.log ((1 + docs.length : ℝ) / (1 + docFreq cfg docs t)) + 1

/-- TF-IDF weight of a term in a document (raw count times idf; the l2
normalisation applied by sklearn cancels in the cosine below). -/
noncomputable def tfidfWeight (cfg : VectorizerCfg) (docs : List String) (d t : String) : ℝ :=
  ((cfg.analyze d).count t : ℝ) * idf cfg docs t

/-- Cosine similarity of the TF-IDF vectors of two documents over the
fitted vocabulary (0 when a vector is null, as in sklearn). -/
noncomputable def cosineSim (cfg : VectorizerCfg) (docs vocab : List String)
    (d1 d2 : String) : ℝ :=
  let dot := (vocab.map (fun t => tfidfWeight cfg docs d1 t * tfidfWeight cfg docs d2 t)).sum
  let n1 := Real.sqrt ((vocab.map (fun t => tfidfWeight cfg docs d1 t ^ 2)).sum)
  let n2 := Real.sqrt ((vocab.map (fun t => tfidfWeight cfg docs d2 t ^ 2)).sum)
  dot / (n1 * n2)

/-- `fit_transform` + `cosine_similarity` of one vectorizer over the case
corpus plus the query (the query is the last document): `none` models the
`ValueError` sklearn raises when the (pruned) vocabulary is empty. -/
noncomputable def tfidfCosines (cfg : VectorizerCfg) (caseDocs : List String)
    (query : String) : Option (List ℝ) :=
  let docs := caseDocs ++ [query]
  let vocab := prunedVocab cfg docs
  if vocab = [] then none
  else some (caseDocs.map (fun d => cosineSim cfg docs vocab d query))

/-- The vectorisation of `find_similar_cases` (case_service.py lines
162-184): the semantic vectorizer, falling back to the plain vectorizer on
failure, `none` when both fail. -/
noncomputable def fitSimilarities (caseDocs : List String) (query : String) :
    Option (List ℝ) :=
  match tfidfCosines semanticCfg caseDocs query with
  | some sims => some sims
  | none => tfidfCosines fallbackCfg caseDocs query

/-- Python's stable descending sort of `(case, score)` pairs by score
(case_service.py line 216 sorts `(idx, score)` pairs and then indexes the
case list, which — by stability — yields the same case order). -/
noncomputable def sortCasePairsDesc (l : List (Case × ℝ)) : List (Case × ℝ) :=
  List.insertionSort (fun a b => b.2 ≤ a.2) l

/-- `CaseService.find_similar_cases` (case_service.py lines 150-228):
vectorise the corpus plus query, compute cosine similarities, add the
semantic-equivalent boost (+0.1 per equivalent of a query token found among
the case's tokens) and the system-match boost (+0.2), sort descending,
truncate to `limit`, and keep the entries above the 0.05 threshold.  Any
vectorisation failure yields `[]`. -/
noncomputable def findSimilarCases (st : MLState) (cases : List Case)
    (problem_description : String) (limit : ℕ) : List Case :=
  if cases = [] then []
  else
    match fitSimilarities (cases.map Case.problem_description) problem_description with
    | none => []
    | some similarities =>
      let query_tokens := pyDedup (semanticTokenizer (preprocessText problem_description))
      let enhanced := (cases.zip similarities).map (fun p =>
        let case_tokens := pyDedup (semanticTokenizer (preprocessText p.1.problem_description))
        let semantic_boost : ℝ :=
          ((query_tokens.map (fun token =>
              (((equivalentsOf token).countP (fun e => case_tokens.contains e)) : ℝ)
                * (1/10))).sum)
        let system_boost : ℝ :=
          if detectSystemType st problem_description = p.1.system_type then 1/5 else 0
        (p.1, p.2 + semantic_boost + system_boost))
      let sorted := sortCasePairsDesc enhanced
      ((sorted.take limit).filter (fun p => (1/20 : ℝ) < p.2)).map Prod.fst

/-- A term absent from a document has TF-IDF weight 0. -/
theorem tfidfWeight_eq_zero (cfg : VectorizerCfg) (docs : List String) {d t : String}
    (h : (cfg.analyze d).count t = 0) : tfidfWeight cfg docs d t = 0 := by
  simp [tfidfWeight, h]

/-- Documents with no shared analyzed term have cosine similarity 0. -/
theorem cosineSim_zero_of_disjoint (cfg : VectorizerCfg) (docs vocab : List String)
    {d q : String} (h : ∀ t ∈ cfg.analyze d, t ∉ cfg.analyze q) :
    cosineSim cfg docs vocab d q = 0 := by
  have hdot : (vocab.map
      (fun t => tfidfWeight cfg docs d t * tfidfWeight cfg docs q t)).sum = 0 := by
    apply List.sum_eq_zero
    intro x hx
    obtain ⟨t, ht, rfl⟩ := List.mem_map.1 hx
    by_cases hc : (cfg.analyze d).count t = 0
    · rw [tfidfWeight_eq_zero cfg docs hc, zero_mul]
    · have htd : t ∈ cfg.analyze d := List.count_pos_iff.1 (Nat.pos_of_ne_zero hc)
      have htq : (cfg.analyze q).count t = 0 := List.count_eq_zero.2 (h t htd)
      rw [tfidfWeight_eq_zero cfg docs htq, mul_zero]
  simp only [cosineSim, hdot, zero_div]

/-- If one vectorizer fit succeeds, all similarities of term-disjoint case
documents are 0. -/
theorem tfidfCosines_mem_zero (cfg : VectorizerCfg) (caseDocs : List String)
    (query : String) (sims : List ℝ)
    (hfit : tfidfCosines cfg caseDocs query = some sims)
    (h : ∀ d ∈ caseDocs, ∀ t ∈ cfg.analyze d, t ∉ cfg.analyze query) :
    ∀ s ∈ sims, s = 0 := by
  unfold tfidfCosines at hfit
  by_cases hv : prunedVocab cfg (caseDocs ++ [query]) = []
  · rw [if_pos hv] at hfit
    exact absurd hfit (by simp)
  · rw [if_neg hv] at hfit
    injection hfit with hfit
    intro s hs
    rw [← hfit] at hs
    obtain ⟨d, hd, rfl⟩ := List.mem_map.1 hs
    exact cosineSim_zero_of_disjoint cfg _ _ (h d hd)

/-- Whichever vectorizer ends up being used, token-disjoint documents give
all-zero similarities. -/
theorem fitSimilarities_all_zero (caseDocs : List String) (query : String)
    (ha : ∀ d ∈ caseDocs, ∀ t ∈ semanticAnalyzerDoc d, t ∉ semanticAnalyzerDoc query)
    (hb : ∀ d ∈ caseDocs, ∀ t ∈ fallbackAnalyzerDoc d, t ∉ fallbackAnalyzerDoc query)
    (sims : List ℝ) (hfit : fitSimilarities caseDocs query = some sims) :
    ∀ s ∈ sims, s = 0 := by
  unfold fitSimilarities at hfit
  cases hsem : tfidfCosines semanticCfg caseDocs query with
  | some sims' =>
    rw [hsem] at hfit
    injection hfit with hfit
    subst hfit
    exact tfidfCosines_mem_zero semanticCfg caseDocs query sims' hsem ha
  | none =>
    rw [hsem] at hfit
    exact tfidfCosines_mem_zero fallbackCfg caseDocs query sims hfit hb

/-- C2 counterexample: the case "impressora parada" shares no token with
the query "tasy" under any of the analyzers in play, yet
`find_similar_cases` returns it: the cosine similarity is 0, but the
system-match boost alone (+0.2, since the query's detected system "Tasy"
equals the stored case's label) exceeds the 0.05 inclusion threshold. -/
theorem find_similar_zero_token_counterexample :
    (∀ t ∈ semanticAnalyzerDoc "impressora parada", t ∉ semanticAnalyzerDoc "tasy") ∧
    findSimilarCases untrainedState [freshCase "impressora parada" "trocar toner" "Tasy" ""]
        "tasy" 5
      = [freshCase "impressora parada" "trocar toner" "Tasy" ""] := by
  refine ⟨by decide, ?_⟩
  have hv_ne : ¬ prunedVocab semanticCfg (["impressora parada"] ++ ["tasy"]) = [] := by decide
  have h1 : tfidfCosines semanticCfg ["impressora parada"] "tasy" = some [0] := by
    simp only [tfidfCosines]
    rw [if_neg hv_ne]
    simp only [List.map_cons, List.map_nil]
    rw [cosineSim_zero_of_disjoint semanticCfg _ _ (by decide)]
  have hfit : fitSimilarities
      ([freshCase "impressora parada" "trocar toner" "Tasy" ""].map Case.problem_description)
      "tasy" = some [0] := by
    have hmap : [freshCase "impressora parada" "trocar toner" "Tasy" ""].map
        Case.problem_description = ["impressora parada"] := rfl
    rw [hmap]
    unfold fitSimilarities
    rw [h1]
  simp only [findSimilarCases, hfit]
  have hne : ¬ ([freshCase "impressora parada" "trocar toner" "Tasy" ""] : List Case) = [] := by
    decide
  rw [if_neg hne]
  have hqt : pyDedup (semanticTokenizer (preprocessText "tasy")) = ["tasy"] := by decide
  have heq : equivalentsOf "tasy" = [] := by decide
  have hdet : detectSystemType untrainedState "tasy" = "Tasy" := by decide
  simp only [List.zip_cons_cons, List.zip_nil_right, List.map_cons, List.map_nil,
    hqt, heq, hdet, freshCase, List.countP_nil, Nat.cast_zero, zero_mul,
    List.sum_cons, List.sum_nil]
  norm_num
  have hsort : ∀ (c : Case) (x : ℝ), sortCasePairsDesc [(c, x)] = [(c, x)] := by
    intro c x
    unfold sortCasePairsDesc
    simp
  rw [hsort]
  have hdec : (decide ((20⁻¹ : ℝ) < 5⁻¹)) = true := decide_eq_true (by norm_num)
  simp [List.take, List.filter, hdec]

/-- C2 amended: when additionally no query token's semantic equivalents
occur among a case's tokens and the system detected for the query differs
from every case's stored label (so neither additive boost fires), a corpus
whose every case shares zero tokens with the query yields
`find_similar_cases = []`. -/
theorem find_similar_no_overlap_empty (st : MLState) (cases : List Case)
    (query : String) (limit : ℕ)
    (ha : ∀ c ∈ cases, ∀ t ∈ semanticAnalyzerDoc c.problem_description,
            t ∉ semanticAnalyzerDoc query)
    (hb : ∀ c ∈ cases, ∀ t ∈ fallbackAnalyzerDoc c.problem_description,
            t ∉ fallbackAnalyzerDoc query)
    (hc : ∀ c ∈ cases, ∀ tok ∈ pyDedup (semanticTokenizer (preprocessText query)),
            (equivalentsOf tok).countP
              (fun e => (pyDedup (semanticTokenizer
                  (preprocessText c.problem_description))).contains e) = 0)
    (hd : ∀ c ∈ cases, detectSystemType st query ≠ c.system_type) :
    findSimilarCases st cases query limit = [] := by
  by_cases hcs : cases = []
  · simp only [findSimilarCases, if_pos hcs]
  · cases hfit : fitSimilarities (cases.map Case.problem_description) query with
    | none => simp only [findSimilarCases, if_neg hcs, hfit]
    | some sims =>
      have hzero : ∀ s ∈ sims, s = 0 := by
        refine fitSimilarities_all_zero _ query ?_ ?_ sims hfit
        · intro d hdm
          obtain ⟨c, hcm, rfl⟩ := List.mem_map.1 hdm
          exact ha c hcm
        · intro d hdm
          obtain ⟨c, hcm, rfl⟩ := List.mem_map.1 hdm
          exact hb c hcm
      simp only [findSimilarCases, if_neg hcs, hfit]
      apply List.map_eq_nil_iff.2
      apply List.filter_eq_nil_iff.2
      intro p hp
      have hp1 : p ∈ sortCasePairsDesc ((cases.zip sims).map (fun p =>
          (p.1, p.2
            + ((pyDedup (semanticTokenizer (preprocessText query))).map (fun token =>
                (((equivalentsOf token).countP (fun e =>
                    (pyDedup (semanticTokenizer
                      (preprocessText p.1.problem_description))).contains e)) : ℝ)
                  * (1/10))).sum
            + if detectSystemType st query = p.1.system_type then (1/5 : ℝ) else 0))) :=
        List.take_subset _ _ hp
      have hp2 := (by
        unfold sortCasePairsDesc at hp1
        exact (List.perm_insertionSort _ _).mem_iff.1 hp1)
      obtain ⟨q, hq, rfl⟩ := List.mem_map.1 hp2
      obtain ⟨qc, qs⟩ := q
      have hmem := List.of_mem_zip hq
      have hqs : qs = 0 := hzero qs hmem.2
      have hsb : ((pyDedup (semanticTokenizer (preprocessText query))).map (fun token =>
          (((equivalentsOf token).countP (fun e =>
              (pyDedup (semanticTokenizer
                (preprocessText qc.problem_description))).contains e)) : ℝ)
            * (1/10))).sum = 0 := by
        apply List.sum_eq_zero
        intro x hx
        obtain ⟨tok, htok, rfl⟩ := List.mem_map.1 hx
        rw [hc qc hmem.1 tok htok]
        norm_num
      have hyb : (if detectSystemType st query = qc.system_type then (1/5 : ℝ) else 0) = 0 :=
        if_neg (hd qc hmem.1)
      simp only [hqs, hsb, hyb, decide_eq_true_eq]
      norm_num

/-- Witness for C2 amended: a one-case corpus sharing no token with the
query, with no semantic-equivalent overlap and a different system label,
yields the empty result. -/
theorem find_similar_no_overlap_empty_witness :
    (∀ t ∈ semanticAnalyzerDoc "impressora parada", t ∉ semanticAnalyzerDoc "tasy") ∧
    findSimilarCases untrainedState [freshCase "impressora parada" "trocar toner" "Hardware" ""]
      "tasy" 5 = [] :=
  ⟨by decide,
   find_similar_no_overlap_empty untrainedState
     [freshCase "impressora parada" "trocar toner" "Hardware" ""] "tasy" 5
     (by decide) (by decide) (by decide) (by decide)⟩

end IaResolver
